import Mathlib

/-!
Shallow embedding of the donation-ledger core of `src/js/main.js`
(the `SafeStorage` utility and the `DonationTracker` object), together
with proofs of the testable properties stated for it.

Modelling conventions:
* JavaScript numbers that the tracker produces are either `NaN`
  (the result of `parseFloat` on non-numeric input) or finite decimal
  values; they are modelled by `JSNum`, with finite values carried
  exactly as rationals.  `NaN` absorbs under addition, as in IEEE 754.
* The four clock reads in `addDonation` (`Date.now()`,
  `toISOString()`, `getMonth()`, `getFullYear()`) are modelled as one
  `Now` value passed to the operation.  The ISO timestamp string
  compares in the same order as the epoch-millisecond value, so the
  record field `timestamp` is kept as the millisecond count.
* `localStorage` is a key/value map plus an availability flag; the
  `try/catch` in `SafeStorage` makes a failing write a no-op and a
  failing read return `null`, which is exactly what the model does
  when `available = false`.  Stored JSON strings are modelled
  structurally by `StoredVal`.
* DOM output (`displayStats`, notifications) is outside the tracker
  state and is dropped.
-/

namespace BoostBond

/-- A JavaScript number as produced by the tracker: `NaN` or a finite
decimal value (modelled exactly as a rational). -/
inductive JSNum where
  | nan : JSNum
  | num : ℚ → JSNum
deriving DecidableEq

/-- JavaScript `+` on the numbers the tracker handles: `NaN` absorbs,
finite values add exactly. -/
def JSNum.add : JSNum → JSNum → JSNum
  | JSNum.num a, JSNum.num b => JSNum.num (a + b)
  | _, _ => JSNum.nan

/-- The `amount` field of a caller-supplied donation object, as seen by
`parseFloat`: either a value that parses to a finite number, or one
that does not parse (for which `parseFloat` yields `NaN`). -/
inductive AmountInput where
  | numeric : ℚ → AmountInput
  | nonNumeric : AmountInput
deriving DecidableEq

/-- `parseFloat(donation.amount)` in `addDonation` (main.js line 260). -/
def parseFloat : AmountInput → JSNum
  | AmountInput.numeric q => JSNum.num q
  | AmountInput.nonNumeric => JSNum.nan

/-- A donation record as built by `addDonation` (main.js lines 258-267).
`timestamp` is the epoch-millisecond instant; the ISO string stored by
the source orders identically. -/
structure Donation where
  id : String
  amount : JSNum
  tool : String
  method : String
  contributor : String
  timestamp : Nat
  month : Nat
  year : Nat
deriving DecidableEq

/-- The `AppState.stats` object (main.js lines 39-44). -/
structure Stats where
  totalRaised : JSNum
  monthlyRaised : JSNum
  toolsSupported : Nat
  contributors : Nat
deriving DecidableEq

/-- The zero statistics object written at load and at reset. -/
def zeroStats : Stats :=
  { totalRaised := JSNum.num 0, monthlyRaised := JSNum.num 0
    toolsSupported := 0, contributors := 0 }

/-- A value held in `localStorage`.  The source stores JSON strings;
the two JSON shapes the tracker writes are modelled structurally, and
any other string is kept verbatim. -/
inductive StoredVal where
  | donationsJson : List Donation → StoredVal
  | statsJson : Stats → StoredVal
  | str : String → StoredVal
deriving DecidableEq

/-- Replace the binding of `key` in an association list, or append it,
matching `localStorage.setItem` semantics on the key/value map. -/
def setPair (key : String) (v : StoredVal) :
    List (String × StoredVal) → List (String × StoredVal)
  | [] => [(key, v)]
  | (k, w) :: rest =>
      if k = key then (key, v) :: rest else (k, w) :: setPair key v rest

/-- The browser storage medium: its key/value map plus whether access
succeeds.  When `available = false` every native read or write throws,
which `SafeStorage` catches. -/
structure Store where
  available : Bool
  data : List (String × StoredVal)
deriving DecidableEq

/-- `SafeStorage.setItem` (main.js lines 18-24): the write happens when
storage is available; a throwing write is caught, logged and dropped. -/
def SafeStorage.setItem (st : Store) (key : String) (v : StoredVal) : Store :=
  if st.available then { st with data := setPair key v st.data } else st

/-- `SafeStorage.getItem` (main.js lines 10-17): a throwing read is
caught and becomes `null` (here `none`). -/
def SafeStorage.getItem (st : Store) (key : String) : Option StoredVal :=
  if st.available then (st.data.find? (fun p => p.1 == key)).map Prod.snd
  else none

/-- The tracker state: the `AppState.donations` array, the
`AppState.stats` object and the storage medium. -/
structure AppState where
  donations : List Donation
  stats : Stats
  storage : Store
deriving DecidableEq

/-- One consistent reading of the clock, covering the four reads done
by `addDonation` and the two done by `updateStats`. -/
structure Now where
  ms : Nat
  month : Nat
  year : Nat

/-- A caller-supplied donation object `{amount, tool?, method?,
contributor?}`; `none` models an absent (`undefined`) field. -/
structure DonationInput where
  amount : AmountInput
  tool : Option String
  method : Option String
  contributor : Option String
deriving DecidableEq

/-- JavaScript `x || dflt` on an optional string field: `undefined` and
the empty string are both falsy and select the default. -/
def jsOrElse (o : Option String) (dflt : String) : String :=
  match o with
  | none => dflt
  | some s => if s = "" then dflt else s

/-- The record object built by `addDonation` (main.js lines 258-267). -/
def newDonation (donation : DonationInput) (now : Now) : Donation :=
  { id := toString now.ms
    amount := parseFloat donation.amount
    tool := jsOrElse donation.tool "General"
    method := jsOrElse donation.method "Unknown"
    contributor := jsOrElse donation.contributor "Anonymous"
    timestamp := now.ms
    month := now.month
    year := now.year }

/-- `reduce((sum, d) => sum + d.amount, 0)` (main.js lines 289-290). -/
def sumAmounts (l : List Donation) : JSNum :=
  l.foldl (fun sum d => JSNum.add sum d.amount) (JSNum.num 0)

/-- Left fold of JavaScript addition over a list of numbers, starting
from 0; used to state sums of input amounts. -/
def sumJS (l : List JSNum) : JSNum :=
  l.foldl JSNum.add (JSNum.num 0)

/-- The pure recomputation done by `updateStats` (main.js lines
281-299): month filter, two sums, and the two `Set` cardinalities.
`List.dedup` keeps first occurrences, so its length is the size of the
JavaScript `Set`. -/
def computeStats (donations : List Donation) (currentMonth currentYear : Nat) :
    Stats :=
  { totalRaised := sumAmounts donations
    monthlyRaised := sumAmounts (donations.filter
      (fun d => d.month == currentMonth && d.year == currentYear))
    toolsSupported := ((donations.filter (fun d => d.tool != "General")).map
      (fun d => d.tool)).dedup.length
    contributors := (donations.map (fun d => d.contributor)).dedup.length }

/-- `DonationTracker.saveDonations` (main.js lines 275-278): writes the
current records and stats to storage. -/
def saveDonations (s : AppState) : AppState :=
  let st1 := SafeStorage.setItem s.storage "donations"
    (StoredVal.donationsJson s.donations)
  let st2 := SafeStorage.setItem st1 "stats" (StoredVal.statsJson s.stats)
  { s with storage := st2 }

/-- `DonationTracker.updateStats` (main.js lines 280-303): recompute,
store the new stats object, persist, render.  Rendering does not touch
tracker state. -/
def updateStats (now : Now) (s : AppState) : AppState :=
  saveDonations { s with stats := computeStats s.donations now.month now.year }

/-- `DonationTracker.addDonation` (main.js lines 257-273): build the
record, push it, persist, recompute.  The notification is DOM-only. -/
def addDonation (donation : DonationInput) (now : Now) (s : AppState) :
    AppState :=
  updateStats now
    (saveDonations { s with donations := s.donations ++ [newDonation donation now] })

/-- `DonationTracker.loadDonations` (main.js lines 243-255): reset the
records and stats to empty/zero and overwrite both storage keys (the
literal `[]` string is the JSON form of the empty array). -/
def loadDonations (s : AppState) : AppState :=
  let st1 := SafeStorage.setItem s.storage "donations"
    (StoredVal.donationsJson [])
  let st2 := SafeStorage.setItem st1 "stats" (StoredVal.statsJson zeroStats)
  { donations := [], stats := zeroStats, storage := st2 }

/-- `DonationTracker.resetStats` (main.js lines 350-356): empty the
records, zero the stats, persist.  The notification is DOM-only. -/
def resetStats (s : AppState) : AppState :=
  saveDonations { s with donations := [], stats := zeroStats }

/-- The comparator `(a, b) => new Date(b.timestamp) - new Date(a.timestamp)`
(main.js line 346) orders records with larger (newer) timestamps first;
`newerFirst a b` says `a` may come before `b` under it. -/
def newerFirst (a b : Donation) : Prop :=
  b.timestamp ≤ a.timestamp

instance : DecidableRel newerFirst := fun a b =>
  inferInstanceAs (Decidable (b.timestamp ≤ a.timestamp))

instance : IsTotal Donation newerFirst :=
  ⟨fun a b => le_total b.timestamp a.timestamp⟩

instance : IsTrans Donation newerFirst :=
  ⟨fun _ _ _ h1 h2 => le_trans h2 h1⟩

/-- The effect of `Array.prototype.sort` with the comparator of line
346: ECMAScript sort is stable and orders by the comparator, and the
stable descending-by-timestamp permutation of a list is unique, so it
is modelled by stable insertion sort with `newerFirst`. -/
def sortByTimestampDesc (l : List Donation) : List Donation :=
  List.insertionSort newerFirst l

/-- `DonationTracker.getDonationHistory` (main.js lines 345-347):
returns `AppState.donations.sort(...)`.  `sort` reorders the array in
place and returns it, so the call yields the sorted list and a state
whose stored array is that same sorted list. -/
def getDonationHistory (s : AppState) : List Donation × AppState :=
  (sortByTimestampDesc s.donations,
   { s with donations := sortByTimestampDesc s.donations })

/-- A sequence of `addDonation` calls, each with its clock reading. -/
def runAppends (s : AppState) : List (DonationInput × Now) → AppState
  | [] => s
  | (i, n) :: rest => runAppends (addDonation i n s) rest

/-! Basic algebra of `JSNum.add` and the fold lemmas for `sumAmounts`. -/

theorem JSNum.add_num_zero (a : JSNum) : JSNum.add a (JSNum.num 0) = a := by
  cases a <;> simp [JSNum.add]

theorem JSNum.num_zero_add (a : JSNum) : JSNum.add (JSNum.num 0) a = a := by
  cases a <;> simp [JSNum.add]

theorem JSNum.add_nan (a : JSNum) : JSNum.add a JSNum.nan = JSNum.nan := by
  cases a <;> rfl

theorem JSNum.nan_add (a : JSNum) : JSNum.add JSNum.nan a = JSNum.nan := rfl

theorem JSNum.add_assoc (a b c : JSNum) :
    JSNum.add (JSNum.add a b) c = JSNum.add a (JSNum.add b c) := by
  cases a <;> cases b <;> cases c <;> simp [JSNum.add, Rat.add_assoc]

theorem foldl_add_shift (l : List Donation) (a : JSNum) :
    l.foldl (fun sum d => JSNum.add sum d.amount) a = JSNum.add a (sumAmounts l) := by
  induction l generalizing a with
  | nil => simp [sumAmounts, JSNum.add_num_zero]
  | cons d l ih =>
      show List.foldl _ (JSNum.add a d.amount) l = JSNum.add a (sumAmounts (d :: l))
      have h2 : sumAmounts (d :: l) = JSNum.add d.amount (sumAmounts l) := by
        show List.foldl _ (JSNum.add (JSNum.num 0) d.amount) l = _
        rw [ih, JSNum.num_zero_add]
      rw [ih, h2, JSNum.add_assoc]

theorem sumAmounts_cons (d : Donation) (l : List Donation) :
    sumAmounts (d :: l) = JSNum.add d.amount (sumAmounts l) := by
  show List.foldl _ (JSNum.add (JSNum.num 0) d.amount) l = _
  rw [foldl_add_shift, JSNum.num_zero_add]

theorem sumAmounts_append (l1 l2 : List Donation) :
    sumAmounts (l1 ++ l2) = JSNum.add (sumAmounts l1) (sumAmounts l2) := by
  show List.foldl _ _ _ = _
  rw [List.foldl_append]
  exact foldl_add_shift l2 (sumAmounts l1)

theorem sumAmounts_nan_of_mem (l : List Donation) (d : Donation)
    (hd : d ∈ l) (h : d.amount = JSNum.nan) : sumAmounts l = JSNum.nan := by
  induction l with
  | nil => cases hd
  | cons x l ih =>
      rw [sumAmounts_cons]
      rcases List.mem_cons.mp hd with h1 | h2
      · rw [← h1, h, JSNum.nan_add]
      · rw [ih h2, JSNum.add_nan]

/-! Projection lemmas for the state operations. -/

theorem saveDonations_donations (s : AppState) :
    (saveDonations s).donations = s.donations := rfl

theorem saveDonations_stats (s : AppState) : (saveDonations s).stats = s.stats := rfl

theorem updateStats_donations (now : Now) (s : AppState) :
    (updateStats now s).donations = s.donations := rfl

theorem updateStats_stats (now : Now) (s : AppState) :
    (updateStats now s).stats = computeStats s.donations now.month now.year := rfl

theorem addDonation_donations (i : DonationInput) (now : Now) (s : AppState) :
    (addDonation i now s).donations = s.donations ++ [newDonation i now] := rfl

theorem addDonation_stats (i : DonationInput) (now : Now) (s : AppState) :
    (addDonation i now s).stats
      = computeStats (s.donations ++ [newDonation i now]) now.month now.year := rfl

theorem runAppends_donations (l : List (DonationInput × Now)) :
    ∀ s : AppState, (runAppends s l).donations
      = s.donations ++ l.map (fun p => newDonation p.1 p.2) := by
  induction l with
  | nil => intro s; simp [runAppends]
  | cons p rest ih =>
      intro s
      show (runAppends (addDonation p.1 p.2 s) rest).donations = _
      rw [ih, addDonation_donations]
      simp

theorem runAppends_totalRaised (l : List (DonationInput × Now)) :
    ∀ s : AppState, s.stats.totalRaised = sumAmounts s.donations →
      (runAppends s l).stats.totalRaised = sumAmounts (runAppends s l).donations := by
  induction l with
  | nil => intro s h; exact h
  | cons p rest ih =>
      intro s _
      show (runAppends (addDonation p.1 p.2 s) rest).stats.totalRaised = _
      exact ih _ rfl

/-! Stability of the history sort: records with a given timestamp keep
their relative (insertion) order. -/

theorem filter_orderedInsert_eq (t : Nat) (r : Donation) (ht : r.timestamp = t) :
    ∀ l : List Donation,
      (List.orderedInsert newerFirst r l).filter (fun d => d.timestamp == t)
        = r :: l.filter (fun d => d.timestamp == t) := by
  intro l
  induction l with
  | nil => simp [List.orderedInsert, List.filter, ht]
  | cons s l ih =>
      by_cases hc : newerFirst r s
      · simp [List.orderedInsert, hc, List.filter_cons, ht]
      · have hs : s.timestamp ≠ t := by
          simp only [newerFirst] at hc
          omega
        simp [List.orderedInsert, hc, List.filter_cons, hs, ih, ht]

theorem filter_orderedInsert_ne (t : Nat) (r : Donation) (ht : r.timestamp ≠ t) :
    ∀ l : List Donation,
      (List.orderedInsert newerFirst r l).filter (fun d => d.timestamp == t)
        = l.filter (fun d => d.timestamp == t) := by
  intro l
  induction l with
  | nil => simp [List.orderedInsert, List.filter_cons, ht]
  | cons s l ih =>
      by_cases hc : newerFirst r s
      · simp [List.orderedInsert, hc, List.filter_cons, ht]
      · simp [List.orderedInsert, hc, List.filter_cons, ih]

theorem filter_sortByTimestampDesc (t : Nat) (l : List Donation) :
    (sortByTimestampDesc l).filter (fun d => d.timestamp == t)
      = l.filter (fun d => d.timestamp == t) := by
  induction l with
  | nil => rfl
  | cons r l ih =>
      show (List.orderedInsert newerFirst r (List.insertionSort newerFirst l)).filter _ = _
      by_cases hr : r.timestamp = t
      · rw [filter_orderedInsert_eq t r hr]
        rw [show List.insertionSort newerFirst l = sortByTimestampDesc l from rfl, ih]
        simp [List.filter_cons, hr]
      · rw [filter_orderedInsert_ne t r hr]
        rw [show List.insertionSort newerFirst l = sortByTimestampDesc l from rfl, ih]
        simp [List.filter_cons, hr]

theorem sortThreeDesc (dA dB dC : Donation)
    (h1 : dA.timestamp < dB.timestamp) (h2 : dB.timestamp < dC.timestamp) :
    sortByTimestampDesc [dA, dB, dC] = [dC, dB, dA] := by
  have hBC : ¬ newerFirst dB dC := by simp only [newerFirst]; omega
  have hAC : ¬ newerFirst dA dC := by simp only [newerFirst]; omega
  have hAB : ¬ newerFirst dA dB := by simp only [newerFirst]; omega
  simp [sortByTimestampDesc, List.insertionSort, List.orderedInsert, hBC, hAC, hAB]

/-! Lemmas about the storage key/value map, for reset idempotence. -/

theorem setPair_same (k : String) (v : StoredVal) :
    ∀ l, setPair k v (setPair k v l) = setPair k v l := by
  intro l
  induction l with
  | nil => simp [setPair]
  | cons p l ih =>
      by_cases h : p.1 = k
      · simp [setPair, h]
      · simp [setPair, h, ih]

theorem setPair_reset_middle (k1 k2 : String) (v1 v2 : StoredVal) (h : k1 ≠ k2) :
    ∀ l, setPair k1 v1 (setPair k2 v2 (setPair k1 v1 l))
      = setPair k2 v2 (setPair k1 v1 l) := by
  intro l
  induction l with
  | nil => simp [setPair, h, Ne.symm h]
  | cons p l ih =>
      by_cases hk1 : p.1 = k1
      · simp [setPair, hk1, h, Ne.symm h]
      · by_cases hk2 : p.1 = k2
        · simp [setPair, hk1, hk2, h, Ne.symm h, setPair_same]
        · simp [setPair, hk1, hk2, ih]

theorem setItem_reset_twice (st : Store) (vD vS : StoredVal) :
    SafeStorage.setItem
      (SafeStorage.setItem
        (SafeStorage.setItem (SafeStorage.setItem st "donations" vD) "stats" vS)
        "donations" vD)
      "stats" vS
    = SafeStorage.setItem (SafeStorage.setItem st "donations" vD) "stats" vS := by
  cases st with
  | mk avail data =>
      cases avail with
      | false => rfl
      | true =>
          simp only [SafeStorage.setItem, if_pos]
          simp only [Store.mk.injEq, true_and]
          rw [setPair_reset_middle "donations" "stats" vD vS (by decide) data]
          rw [setPair_same]

/-! Helpers for the distinct-count statistics. -/

theorem computeStats_contributors (l : List Donation) (cm cy : Nat) :
    (computeStats l cm cy).contributors
      = (l.map (fun d => d.contributor)).dedup.length := rfl

theorem map_filter_tool (l : List Donation) :
    (l.filter (fun d => d.tool != "General")).map (fun d => d.tool)
      = (l.map (fun d => d.tool)).filter (fun t => t != "General") := by
  induction l with
  | nil => rfl
  | cons d l ih =>
      by_cases h : d.tool = "General"
      · simp [List.filter_cons, List.map_cons, h, ih]
      · simp [List.filter_cons, List.map_cons, h, ih]

theorem toolsSupported_eq_tools (l : List Donation) (cm cy : Nat) :
    (computeStats l cm cy).toolsSupported
      = ((l.map (fun d => d.tool)).filter (fun t => t != "General")).dedup.length := by
  show ((l.filter (fun d => d.tool != "General")).map (fun d => d.tool)).dedup.length = _
  rw [map_filter_tool]

/-- A tracker state with given records, stats and storage data, with the
storage medium available (`b = true`) or failing (`b = false`). -/
def withAvail (b : Bool) (dons : List Donation) (st : Stats)
    (dat : List (String × StoredVal)) : AppState :=
  AppState.mk dons st (Store.mk b dat)

/-! Concrete example inputs, used by the witnesses below. -/

def exStore : Store := { available := true, data := [] }

def exEmptyState : AppState :=
  { donations := [], stats := zeroStats, storage := exStore }

def exInputA : DonationInput :=
  { amount := AmountInput.numeric 25, tool := some "Alpha"
    method := none, contributor := some "Sam" }

def exInputAlpha2 : DonationInput :=
  { amount := AmountInput.numeric 10, tool := some "Alpha"
    method := some "Ko-fi", contributor := some "Sam" }

def exInputB : DonationInput :=
  { amount := AmountInput.numeric 10, tool := none
    method := none, contributor := some "Sam" }

def exInputC : DonationInput :=
  { amount := AmountInput.numeric 5, tool := some "General"
    method := none, contributor := none }

def exBadInput : DonationInput :=
  { amount := AmountInput.nonNumeric, tool := none
    method := none, contributor := none }

def exNow0 : Now := { ms := 100, month := 9, year := 2026 }

def exNow1 : Now := { ms := 200, month := 9, year := 2026 }

def exNow2 : Now := { ms := 300, month := 9, year := 2026 }

def exDonOld : Donation :=
  { id := "10", amount := JSNum.num 5, tool := "General", method := "Unknown"
    contributor := "Anonymous", timestamp := 10, month := 9, year := 2026 }

def exDonNew : Donation :=
  { id := "20", amount := JSNum.num 7, tool := "General", method := "Unknown"
    contributor := "Anonymous", timestamp := 20, month := 9, year := 2026 }

def exDonPrior : Donation :=
  { id := "5", amount := JSNum.num 3, tool := "General", method := "Unknown"
    contributor := "Anonymous", timestamp := 5, month := 8, year := 2026 }

def exTwoState : AppState :=
  { donations := [exDonOld, exDonNew]
    stats := computeStats [exDonOld, exDonNew] 9 2026
    storage := exStore }

/-- Claim C1: for every sequence of append calls, after the last append
the stored `totalRaised` equals the JavaScript sum of the coerced
(`parseFloat`) amount values of all appended records. -/
theorem totalRaised_eq_sum_of_appends (s : AppState) (l : List (DonationInput × Now)) :
    (runAppends (loadDonations s) l).stats.totalRaised
      = sumJS (l.map (fun p => parseFloat p.1.amount)) := by
  have h0 : (loadDonations s).stats.totalRaised
      = sumAmounts (loadDonations s).donations := rfl
  rw [runAppends_totalRaised l (loadDonations s) h0, runAppends_donations]
  have hd : (loadDonations s).donations = [] := rfl
  rw [hd, List.nil_append]
  simp [sumAmounts, sumJS, List.foldl_map, newDonation]

/-- Claim C2: after each of the operations `loadDonations` (the
page-load reset), `addDonation` and `resetStats`, the stored stats
object equals the pure recomputation `computeStats` applied to the
stored record sequence at the clock reading of that operation; no
reachable state holds stale stats. -/
theorem stats_always_recomputed (s : AppState) (i : DonationInput) (now : Now) :
    (loadDonations s).stats
        = computeStats (loadDonations s).donations now.month now.year
      ∧ (addDonation i now s).stats
        = computeStats (addDonation i now s).donations now.month now.year
      ∧ (resetStats s).stats
        = computeStats (resetStats s).donations now.month now.year :=
  ⟨rfl, rfl, rfl⟩

/-- Claim C3: the history operation returns the records ordered
newest-first by timestamp (a sorted permutation of the stored
sequence), records sharing a timestamp keep their insertion order, and
appending records A, B, C at strictly increasing instants yields
history [C, B, A]. -/
theorem history_sorted_stable_newest_first (s : AppState) (t : Nat)
    (A B C : DonationInput) (nA nB nC : Now)
    (hAB : nA.ms < nB.ms) (hBC : nB.ms < nC.ms) :
    List.Sorted newerFirst (getDonationHistory s).1
      ∧ (getDonationHistory s).1.Perm s.donations
      ∧ (getDonationHistory s).1.filter (fun d => d.timestamp == t)
        = s.donations.filter (fun d => d.timestamp == t)
      ∧ (getDonationHistory
          (addDonation C nC (addDonation B nB (addDonation A nA (loadDonations s))))).1
        = [newDonation C nC, newDonation B nB, newDonation A nA] := by
  refine ⟨List.sorted_insertionSort newerFirst s.donations,
    List.perm_insertionSort newerFirst s.donations,
    filter_sortByTimestampDesc t s.donations, ?_⟩
  have hdons : (addDonation C nC (addDonation B nB (addDonation A nA (loadDonations s)))).donations
      = [newDonation A nA, newDonation B nB, newDonation C nC] := rfl
  show sortByTimestampDesc _ = _
  rw [hdons]
  exact sortThreeDesc (newDonation A nA) (newDonation B nB) (newDonation C nC) hAB hBC

/-- Witness for C3 at concrete inputs: empty starting state, three
appends at instants 100 < 200 < 300. -/
theorem history_sorted_stable_newest_first_witness :
    List.Sorted newerFirst (getDonationHistory exEmptyState).1
      ∧ (getDonationHistory exEmptyState).1.Perm exEmptyState.donations
      ∧ (getDonationHistory exEmptyState).1.filter (fun d => d.timestamp == 100)
        = exEmptyState.donations.filter (fun d => d.timestamp == 100)
      ∧ (getDonationHistory
          (addDonation exInputC exNow2 (addDonation exInputB exNow1
            (addDonation exInputA exNow0 (loadDonations exEmptyState))))).1
        = [newDonation exInputC exNow2, newDonation exInputB exNow1,
           newDonation exInputA exNow0] :=
  history_sorted_stable_newest_first exEmptyState 100 exInputA exInputB exInputC
    exNow0 exNow1 exNow2 (by decide) (by decide)

/-- Claim C4 counterexample: the history operation is not read-only.
`getDonationHistory` calls `Array.prototype.sort`, which reorders the
stored array in place: on a state holding an older record before a
newer one, the stored sequence after the call differs from the one
before it. -/
theorem history_mutates_counterexample :
    (getDonationHistory exTwoState).2.donations ≠ exTwoState.donations := by
  decide

/-- Claim C4 (amended): the history operation leaves the stored stats,
the storage medium and the multiset of stored records unchanged, but it
reorders the stored record sequence in place to newest-first order. -/
theorem history_frame_amended (s : AppState) :
    (getDonationHistory s).2.stats = s.stats
      ∧ (getDonationHistory s).2.storage = s.storage
      ∧ (getDonationHistory s).2.donations.Perm s.donations
      ∧ (getDonationHistory s).2.donations = sortByTimestampDesc s.donations :=
  ⟨rfl, rfl, List.perm_insertionSort newerFirst s.donations, rfl⟩

/-- Claim C5: `toolsSupported` is the number of distinct tool values
among records whose tool is not the sentinel "General"; appending two
records with tool "Alpha" and one with tool "General" yields
`toolsSupported = 1`. -/
theorem toolsSupported_distinct_nonGeneral (l : List Donation) (cm cy : Nat)
    (s : AppState) (i1 i2 i3 : DonationInput) (n1 n2 n3 : Now)
    (h1 : i1.tool = some "Alpha") (h2 : i2.tool = some "Alpha")
    (h3 : i3.tool = some "General") :
    (computeStats l cm cy).toolsSupported
        = ((l.filter (fun d => d.tool != "General")).map (fun d => d.tool)).toFinset.card
      ∧ (addDonation i3 n3 (addDonation i2 n2
          (addDonation i1 n1 (loadDonations s)))).stats.toolsSupported = 1 := by
  constructor
  · exact (List.card_toFinset _).symm
  · have ht1 : (newDonation i1 n1).tool = "Alpha" := by
      show jsOrElse i1.tool "General" = "Alpha"
      rw [h1]; decide
    have ht2 : (newDonation i2 n2).tool = "Alpha" := by
      show jsOrElse i2.tool "General" = "Alpha"
      rw [h2]; decide
    have ht3 : (newDonation i3 n3).tool = "General" := by
      show jsOrElse i3.tool "General" = "General"
      rw [h3]; decide
    rw [addDonation_stats, toolsSupported_eq_tools]
    have hd : ((addDonation i2 n2 (addDonation i1 n1 (loadDonations s))).donations
          ++ [newDonation i3 n3]).map (fun d => d.tool)
        = ["Alpha", "Alpha", "General"] := by
      rw [addDonation_donations, addDonation_donations]
      have h0 : (loadDonations s).donations = [] := rfl
      rw [h0]
      simp [ht1, ht2, ht3]
    rw [hd]
    decide

/-- Witness for C5 at concrete inputs: two "Alpha" donations then a
"General" one, appended to a fresh state. -/
theorem toolsSupported_distinct_nonGeneral_witness :
    (computeStats [exDonOld] 9 2026).toolsSupported
        = (([exDonOld].filter (fun d => d.tool != "General")).map
            (fun d => d.tool)).toFinset.card
      ∧ (addDonation exInputC exNow2 (addDonation exInputAlpha2 exNow1
          (addDonation exInputA exNow0 (loadDonations exEmptyState)))).stats.toolsSupported
        = 1 :=
  toolsSupported_distinct_nonGeneral [exDonOld] 9 2026 exEmptyState
    exInputA exInputAlpha2 exInputC exNow0 exNow1 exNow2 rfl rfl rfl

/-- Claim C6: `contributors` is the number of distinct contributor
strings, the default "Anonymous" counted like any other; appending
three records with no contributor given yields `contributors = 1`. -/
theorem contributors_distinct_including_anonymous (l : List Donation) (cm cy : Nat)
    (s : AppState) (i1 i2 i3 : DonationInput) (n1 n2 n3 : Now)
    (h1 : i1.contributor = none) (h2 : i2.contributor = none)
    (h3 : i3.contributor = none) :
    (computeStats l cm cy).contributors
        = (l.map (fun d => d.contributor)).toFinset.card
      ∧ (addDonation i3 n3 (addDonation i2 n2
          (addDonation i1 n1 (loadDonations s)))).stats.contributors = 1 := by
  constructor
  · exact (List.card_toFinset _).symm
  · have hc1 : (newDonation i1 n1).contributor = "Anonymous" := by
      show jsOrElse i1.contributor "Anonymous" = "Anonymous"
      rw [h1]; rfl
    have hc2 : (newDonation i2 n2).contributor = "Anonymous" := by
      show jsOrElse i2.contributor "Anonymous" = "Anonymous"
      rw [h2]; rfl
    have hc3 : (newDonation i3 n3).contributor = "Anonymous" := by
      show jsOrElse i3.contributor "Anonymous" = "Anonymous"
      rw [h3]; rfl
    rw [addDonation_stats, computeStats_contributors]
    have hd : ((addDonation i2 n2 (addDonation i1 n1 (loadDonations s))).donations
          ++ [newDonation i3 n3]).map (fun d => d.contributor)
        = ["Anonymous", "Anonymous", "Anonymous"] := by
      rw [addDonation_donations, addDonation_donations]
      have h0 : (loadDonations s).donations = [] := rfl
      rw [h0]
      simp [hc1, hc2, hc3]
    rw [hd]
    decide

/-- Witness for C6 at concrete inputs: three appends whose input omits
the contributor field. -/
theorem contributors_distinct_including_anonymous_witness :
    (computeStats [exDonOld] 9 2026).contributors
        = ([exDonOld].map (fun d => d.contributor)).toFinset.card
      ∧ (addDonation exBadInput exNow2 (addDonation exBadInput exNow1
          (addDonation exBadInput exNow0 (loadDonations exEmptyState)))).stats.contributors
        = 1 :=
  contributors_distinct_including_anonymous [exDonOld] 9 2026 exEmptyState
    exBadInput exBadInput exBadInput exNow0 exNow1 exNow2 rfl rfl rfl

/-- Claim C7: `monthlyRaised` sums exactly the records whose stored
month and year match the current calendar month and year; a record of a
prior month is excluded from `monthlyRaised` but still contributes its
amount to `totalRaised`. -/
theorem monthlyRaised_current_month_only (l : List Donation) (cm cy : Nat)
    (d : Donation) (h : d.month ≠ cm ∨ d.year ≠ cy) :
    (computeStats l cm cy).monthlyRaised
        = sumAmounts (l.filter (fun x => x.month == cm && x.year == cy))
      ∧ (computeStats (d :: l) cm cy).monthlyRaised
        = (computeStats l cm cy).monthlyRaised
      ∧ (computeStats (d :: l) cm cy).totalRaised
        = JSNum.add d.amount ((computeStats l cm cy).totalRaised) := by
  refine ⟨rfl, ?_, ?_⟩
  · have hb : (d.month == cm && d.year == cy) = false := by
      rcases h with h | h <;> simp [h]
    show sumAmounts (List.filter _ (d :: l)) = sumAmounts (List.filter _ l)
    rw [List.filter_cons, hb]
    simp
  · show sumAmounts (d :: l) = _
    rw [sumAmounts_cons]
    rfl

/-- Witness for C7 at concrete inputs: a record of month 8 against
current month 9, omitted from the monthly sum, counted in the total. -/
theorem monthlyRaised_current_month_only_witness :
    (computeStats [exDonOld] 9 2026).monthlyRaised
        = sumAmounts ([exDonOld].filter (fun x => x.month == 9 && x.year == 2026))
      ∧ (computeStats (exDonPrior :: [exDonOld]) 9 2026).monthlyRaised
        = (computeStats [exDonOld] 9 2026).monthlyRaised
      ∧ (computeStats (exDonPrior :: [exDonOld]) 9 2026).totalRaised
        = JSNum.add exDonPrior.amount ((computeStats [exDonOld] 9 2026).totalRaised) :=
  monthlyRaised_current_month_only [exDonOld] 9 2026 exDonPrior (Or.inl (by decide))

/-- Claim C8: `resetStats` produces the same state as `loadDonations`
(the page-load reset), both are idempotent, and after a reset the
stored records are empty, the stats are zero and history reads back
empty, whatever the prior state was. -/
theorem reset_equiv_load_and_idempotent (s : AppState) :
    resetStats s = loadDonations s
      ∧ resetStats (resetStats s) = resetStats s
      ∧ loadDonations (loadDonations s) = loadDonations s
      ∧ (resetStats s).donations = []
      ∧ (resetStats s).stats = zeroStats
      ∧ (getDonationHistory (resetStats s)).1 = [] := by
  refine ⟨rfl, ?_, ?_, rfl, rfl, rfl⟩
  · exact congrArg (AppState.mk [] zeroStats)
      (setItem_reset_twice s.storage (StoredVal.donationsJson [])
        (StoredVal.statsJson zeroStats))
  · exact congrArg (AppState.mk [] zeroStats)
      (setItem_reset_twice s.storage (StoredVal.donationsJson [])
        (StoredVal.statsJson zeroStats))

/-- Claim C9: with the storage medium failing (reads return null,
writes throw and are caught by `SafeStorage`), every operation still
returns, and append, history, reset and the page-load reset produce the
same in-memory records and stats as with working persistence; the
failed writes leave the medium untouched. -/
theorem storage_failure_transparent (dons : List Donation) (st : Stats)
    (dat : List (String × StoredVal)) (i : DonationInput) (now : Now) :
    (addDonation i now (withAvail false dons st dat)).donations
        = (addDonation i now (withAvail true dons st dat)).donations
      ∧ (addDonation i now (withAvail false dons st dat)).stats
        = (addDonation i now (withAvail true dons st dat)).stats
      ∧ (getDonationHistory (withAvail false dons st dat)).1
        = (getDonationHistory (withAvail true dons st dat)).1
      ∧ (resetStats (withAvail false dons st dat)).donations
        = (resetStats (withAvail true dons st dat)).donations
      ∧ (resetStats (withAvail false dons st dat)).stats
        = (resetStats (withAvail true dons st dat)).stats
      ∧ (loadDonations (withAvail false dons st dat)).donations
        = (loadDonations (withAvail true dons st dat)).donations
      ∧ (loadDonations (withAvail false dons st dat)).stats
        = (loadDonations (withAvail true dons st dat)).stats
      ∧ (addDonation i now (withAvail false dons st dat)).storage
        = Store.mk false dat :=
  ⟨rfl, rfl, rfl, rfl, rfl, rfl, rfl, rfl⟩

/-- Claim C10: an append whose amount does not parse creates a record
with amount NaN, is not rejected (the sequence still grows by one), and
from then on `totalRaised` (and `monthlyRaised`, the fresh record being
in the current month) is NaN after every later recomputation, until a
reset restores 0. -/
theorem nonNumeric_amount_poisons_totals (s : AppState) (i : DonationInput)
    (now : Now) (rest : List (DonationInput × Now))
    (h : i.amount = AmountInput.nonNumeric) :
    (newDonation i now).amount = JSNum.nan
      ∧ (addDonation i now s).donations.length = s.donations.length + 1
      ∧ (addDonation i now s).stats.monthlyRaised = JSNum.nan
      ∧ (runAppends (addDonation i now s) rest).stats.totalRaised = JSNum.nan
      ∧ (resetStats (runAppends (addDonation i now s) rest)).stats.totalRaised
        = JSNum.num 0 := by
  have hnan : (newDonation i now).amount = JSNum.nan := by
    show parseFloat i.amount = JSNum.nan
    rw [h]; rfl
  refine ⟨hnan, ?_, ?_, ?_, rfl⟩
  · rw [addDonation_donations]
    simp
  · rw [addDonation_stats]
    show sumAmounts (List.filter _ (s.donations ++ [newDonation i now])) = JSNum.nan
    apply sumAmounts_nan_of_mem _ (newDonation i now) _ hnan
    rw [List.mem_filter]
    refine ⟨List.mem_append_right _ (List.mem_singleton.mpr rfl), ?_⟩
    show ((newDonation i now).month == now.month
        && (newDonation i now).year == now.year) = true
    simp [newDonation]
  · rw [runAppends_totalRaised rest _ rfl]
    apply sumAmounts_nan_of_mem _ (newDonation i now) _ hnan
    rw [runAppends_donations, addDonation_donations]
    exact List.mem_append_left _
      (List.mem_append_right _ (List.mem_singleton.mpr rfl))

/-- Witness for C10 at concrete inputs: a non-parsing amount appended
to a fresh state, followed by one further numeric append and a reset. -/
theorem nonNumeric_amount_poisons_totals_witness :
    (newDonation exBadInput exNow0).amount = JSNum.nan
      ∧ (addDonation exBadInput exNow0 exEmptyState).donations.length
        = exEmptyState.donations.length + 1
      ∧ (addDonation exBadInput exNow0 exEmptyState).stats.monthlyRaised = JSNum.nan
      ∧ (runAppends (addDonation exBadInput exNow0 exEmptyState)
          [(exInputA, exNow1)]).stats.totalRaised = JSNum.nan
      ∧ (resetStats (runAppends (addDonation exBadInput exNow0 exEmptyState)
          [(exInputA, exNow1)])).stats.totalRaised = JSNum.num 0 :=
  nonNumeric_amount_poisons_totals exEmptyState exBadInput exNow0
    [(exInputA, exNow1)] rfl

end BoostBond
